import Mathlib

/-!
Verification of the upload-utility scripts `src/test.py` and `src/test2.py`.

The two scripts validate a local file, infer its content type, compute a
destination S3 object key, and upload the file, logging progress.  The pure
string logic (`build_s3_key`, `infer_content_type`, the extension checks of
`validate_inputs`) is embedded directly; the I/O boundary (filesystem
existence checks, the boto3 transfer call, `sys.exit`) is embedded by passing
the outcome of each external effect as an explicit boolean parameter and
returning an explicit outcome value instead of exiting.

Paths: the scripts only ever use `Path.name` (the final component) and
`Path.suffix` (the extension of the final component), so a path is embedded
as its final component.  `Path.expanduser().resolve()` is abstracted as the
identity on the final component: the claims under study concern ordinary
regular files, for which resolution does not change the base name.
-/

/-- A `pathlib.Path` value, represented by its final component (`Path.name`).
`pathlib` guarantees the name contains no `/`. -/
structure PyPath where
  name : String
deriving DecidableEq, Repr

/-- `pathlib.Path.suffix`: the extension of the final component.  CPython:
`i = name.rfind('.'); return name[i:] if 0 < i < len(name) - 1 else ''`. -/
def PyPath.suffix (p : PyPath) : String :=
  let cs := p.name.data
  let revAfter := cs.reverse.takeWhile (fun c => !(c == '.'))
  if revAfter.length = cs.length then ""
  else
    let i := cs.length - 1 - revAfter.length
    if 0 < i ∧ i < cs.length - 1 then String.mk (cs.drop i) else ""

/-- Python `s.lower()`.  Acts characterwise; all extensions handled by the
scripts are ASCII. -/
def pyLower (s : String) : String :=
  String.mk (s.data.map Char.toLower)

/-- Python `s.startswith("/")`. -/
def pyStartsWithSlash (s : String) : Bool :=
  match s.data with
  | [] => false
  | c :: _ => c == '/'

/-- Python `s[1:]`. -/
def pyDropFirst (s : String) : String :=
  String.mk s.data.tail

/-- Python `s.strip("/")`: remove leading and trailing `/` characters
(trailing first via reverse, then leading; the two removals commute). -/
def pyStripSlash (s : String) : String :=
  String.mk (((s.data.reverse.dropWhile fun c => c == '/').reverse).dropWhile fun c => c == '/')

/-- Python truthiness of an `Optional[str]`: `None` and `""` are falsy. -/
def pyTruthy : Option String → Bool
  | none => false
  | some s => !s.isEmpty

/-- Python `a or b` for `a : Optional[str]`, `b : str`. -/
def pyOrStr (a : Option String) (b : String) : String :=
  if pyTruthy a then a.getD "" else b

/-- `s` contains `sub` as a substring. -/
def strContains (s sub : String) : Prop :=
  ∃ a b : String, s = a ++ sub ++ b

/-- The process-wide configuration object `app.config.settings` (external to
the two scripts; only these three read-only fields are read). -/
structure Settings where
  AWS_BUCKET_NAME : String
  AWS_REGION : String
  ENVIRONMENT : String
deriving DecidableEq, Repr

/-- Modelled from the spec: the extension→MIME-type table consulted by the
Python stdlib `mimetypes.guess_type` (the stdlib is not part of this
repository).  Per the spec it is "a configurable extension→type table seeded
with at least {pdf, png, jpg/jpeg, gif, webp, bmp}"; the `__main__` blocks of
both scripts register exactly these mappings.  `guess_type` lowercases the
extension before the lookup. -/
def mimetypesTable : List (String × String) :=
  [(".pdf", "application/pdf"),
   (".png", "image/png"),
   (".jpg", "image/jpeg"),
   (".jpeg", "image/jpeg"),
   (".gif", "image/gif"),
   (".webp", "image/webp"),
   (".bmp", "image/bmp")]

/-- `mimetypes.guess_type` restricted to what the scripts use: look up the
lowercased extension of the final path component; `none` when unmapped. -/
def mimetypes_guess_type (p : PyPath) : Option String :=
  mimetypesTable.lookup (pyLower p.suffix)

/-- Result of `validate_inputs`: either `sys.exit(code)`, or the resolved
path is returned; `warned` records whether a warning was logged. -/
inductive VResult where
  | exit (code : Nat)
  | ok (resolved : PyPath) (warned : Bool)
deriving DecidableEq, Repr

namespace TestPy

/-- `test.py validate_inputs(local_path)`.  `p` is the resolved path;
`pexists` and `isfile` are the results of the two filesystem probes on it. -/
def validate_inputs (p : PyPath) (pexists isfile : Bool) : VResult :=
  if !pexists then .exit 1
  else if !isfile then .exit 1
  else if (pyLower p.suffix) ≠ ".pdf" then .ok p true
  else .ok p false

/-- `test.py infer_content_type(file_path)`. -/
def infer_content_type (p : PyPath) : String :=
  (mimetypes_guess_type p).getD "application/octet-stream"

/-- `test.py build_s3_key(local_file_path, s3_key)`. -/
def build_s3_key (local_file_path : PyPath) (s3_key : Option String) : String :=
  if pyTruthy s3_key then
    let k := s3_key.getD ""
    if pyStartsWithSlash k then pyDropFirst k else k
  else
    local_file_path.name

/-- Result of `test.py upload_file_to_s3` (which returns `None`): either a
fatal exit after logging the exception, or the success log line. -/
inductive UploadResult where
  | fatal (code : Nat) (loggedError : Bool)
  | ok (successLine : String)
deriving DecidableEq, Repr

/-- `test.py upload_file_to_s3(local_file_path, bucket_name, object_key)`.
`transferOk` is the outcome of the single `s3.upload_file` call. -/
def upload_file_to_s3 (local_file_path : PyPath) (bucket_name object_key : String)
    (transferOk : Bool) : UploadResult :=
  let _content_type := infer_content_type local_file_path
  if !transferOk then .fatal 1 true
  else .ok ("Upload complete: " ++ ("s3://" ++ bucket_name ++ "/" ++ object_key))

/-- Result of `test.py main`. -/
inductive MainOutcome where
  | exit (code : Nat)
  | done (object_key successLine : String)
deriving DecidableEq, Repr

/-- `test.py main()`.  `file`, `key`, `bucket` are the parsed CLI arguments
(`--key` and `--bucket` default to `None`); `settings` is the configuration;
`pexists`, `isfile`, `transferOk` are the outcomes of the external effects. -/
def main (file : PyPath) (key bucket : Option String) (settings : Settings)
    (pexists isfile transferOk : Bool) : MainOutcome :=
  match validate_inputs file pexists isfile with
  | .exit c => .exit c
  | .ok local_file_path _ =>
    let bucket_name := pyOrStr bucket settings.AWS_BUCKET_NAME
    if bucket_name.isEmpty then .exit 1
    else
      let object_key := build_s3_key local_file_path key
      match upload_file_to_s3 local_file_path bucket_name object_key transferOk with
      | .fatal c _ => .exit c
      | .ok line => .done object_key line

end TestPy

namespace Test2Py

/-- `test2.py SUPPORTED_IMAGE_EXTENSIONS`. -/
def SUPPORTED_IMAGE_EXTENSIONS : List String :=
  [".png", ".jpg", ".jpeg", ".gif", ".webp", ".bmp"]

/-- `test2.py validate_inputs(local_path, is_image)`. -/
def validate_inputs (p : PyPath) (pexists isfile : Bool) (is_image : Bool) : VResult :=
  if !pexists then .exit 1
  else if !isfile then .exit 1
  else
    let suffix := (pyLower p.suffix)
    if is_image then
      if ¬ SUPPORTED_IMAGE_EXTENSIONS.contains suffix then .exit 1
      else .ok p false
    else
      if suffix ≠ ".pdf" then .ok p true
      else .ok p false

/-- `test2.py infer_content_type(file_path)`. -/
def infer_content_type (p : PyPath) : String :=
  (mimetypes_guess_type p).getD "application/octet-stream"

/-- `test2.py build_s3_key(local_file_path, s3_key, folder=None)`. -/
def build_s3_key (local_file_path : PyPath) (s3_key : Option String)
    (folder : Option String) : String :=
  if pyTruthy s3_key then
    let k := s3_key.getD ""
    if pyStartsWithSlash k then pyDropFirst k else k
  else
    let filename := local_file_path.name
    if pyTruthy folder then
      pyStripSlash (folder.getD "") ++ "/" ++ filename
    else
      filename

/-- Result of `test2.py upload_file_to_s3` (which returns the s3 path):
either a fatal exit after logging the exception, or the success log line
together with the returned `s3_path`. -/
inductive UploadResult where
  | fatal (code : Nat) (loggedError : Bool)
  | ok (successLine s3_path : String)
deriving DecidableEq, Repr

/-- `test2.py upload_file_to_s3(local_file_path, bucket_name, object_key)`. -/
def upload_file_to_s3 (local_file_path : PyPath) (bucket_name object_key : String)
    (transferOk : Bool) : UploadResult :=
  let _content_type := infer_content_type local_file_path
  if !transferOk then .fatal 1 true
  else
    let s3_path := "s3://" ++ bucket_name ++ "/" ++ object_key
    .ok ("Upload complete: " ++ s3_path) s3_path

/-- Result of `test2.py main`; `imageInfo` holds the three values printed by
the image-mode info block `(object_key, file name, bucket name)`. -/
inductive MainOutcome where
  | exit (code : Nat)
  | done (object_key successLine s3_path : String)
      (imageInfo : Option (String × String × String))
deriving DecidableEq, Repr

/-- `test2.py main()`.  `folder = none` means `--folder` was absent, in which
case argparse supplies the default `"dummy_image"`; `image` is the
`--image` flag. -/
def main (file : PyPath) (key bucket folder : Option String) (image : Bool)
    (settings : Settings) (pexists isfile transferOk : Bool) : MainOutcome :=
  let args_folder := folder.getD "dummy_image"
  let is_image := image || SUPPORTED_IMAGE_EXTENSIONS.contains (pyLower file.suffix)
  match validate_inputs file pexists isfile is_image with
  | .exit c => .exit c
  | .ok local_file_path _ =>
    let bucket_name := pyOrStr bucket settings.AWS_BUCKET_NAME
    if bucket_name.isEmpty then .exit 1
    else
      let object_key := build_s3_key local_file_path key (some args_folder)
      match upload_file_to_s3 local_file_path bucket_name object_key transferOk with
      | .fatal c _ => .exit c
      | .ok line s3_path =>
        .done object_key line s3_path
          (if is_image then some (object_key, local_file_path.name, bucket_name) else none)

end Test2Py

/-- A concrete configuration used by closed counterexample statements. -/
def exampleSettings : Settings :=
  { AWS_BUCKET_NAME := "cfg-bucket", AWS_REGION := "us-east-1", ENVIRONMENT := "dev" }

example : Test2Py.build_s3_key ⟨"x.png"⟩ (some "/a/b.pdf") none = "a/b.pdf" := by decide
example : Test2Py.build_s3_key ⟨"x.png"⟩ none (some "docs/") = "docs/x.png" := by decide
example : Test2Py.build_s3_key ⟨"x.png"⟩ none none = "x.png" := by decide
example : Test2Py.build_s3_key ⟨"x.png"⟩ (some "//a") none = "/a" := by decide
example : (⟨"report.pdf"⟩ : PyPath).suffix = ".pdf" := by decide
example : pyLower (⟨"x.PNG"⟩ : PyPath).suffix = ".png" := by decide
example : TestPy.infer_content_type ⟨"report.pdf"⟩ = "application/pdf" := by decide
example : TestPy.infer_content_type ⟨"file.unknownext"⟩ = "application/octet-stream" := by decide

/-! ### Helper lemmas about the string primitives -/

theorem strData_append (a b : String) : (a ++ b).data = a.data ++ b.data := by
  cases a
  cases b
  rfl

theorem strContains_self (pre s : String) : strContains (pre ++ s) s := by
  refine ⟨pre, "", ?_⟩
  apply String.ext
  simp [strData_append]

theorem dropWhileSlash_head (l : List Char) (c : Char)
    (h : (l.dropWhile fun x => x == '/').head? = some c) : (c == '/') = false := by
  induction l with
  | nil => simp at h
  | cons a t ih =>
    by_cases ha : (a == '/') = true
    · rw [List.dropWhile_cons, if_pos ha] at h
      exact ih h
    · rw [List.dropWhile_cons, if_neg ha] at h
      simp only [List.head?_cons, Option.some.injEq] at h
      subst h
      simpa using ha

theorem stripSlash_head (f : String) (c : Char)
    (h : (pyStripSlash f).data.head? = some c) : (c == '/') = false :=
  dropWhileSlash_head _ c h

theorem pyTruthy_some_iff (s : String) : pyTruthy (some s) = true ↔ s ≠ "" := by
  rw [show pyTruthy (some s) = !s.isEmpty from rfl]
  constructor
  · intro h heq
    subst heq
    exact absurd h (by decide)
  · intro h
    cases he : s.isEmpty
    · rfl
    · exact absurd ((String.isEmpty_iff s).mp he) h

theorem normKey_head (k : String) (h2 : k.data.take 2 ≠ ['/', '/']) :
    (if pyStartsWithSlash k then pyDropFirst k else k).data.head? ≠ some '/' := by
  cases k with
  | mk l =>
    match l with
    | [] => simp [pyStartsWithSlash]
    | c :: rest =>
      by_cases hc : c = '/'
      · subst hc
        have hs : pyStartsWithSlash ⟨'/' :: rest⟩ = true := by simp [pyStartsWithSlash]
        rw [if_pos hs]
        match rest with
        | [] => simp [pyDropFirst]
        | d :: r =>
          intro hd
          simp only [pyDropFirst, List.tail_cons, List.head?_cons, Option.some.injEq] at hd
          subst hd
          exact h2 (by simp [List.take])
      · have hs : pyStartsWithSlash ⟨c :: rest⟩ = false := by
          simp [pyStartsWithSlash]
          exact hc
        rw [if_neg (by simp [hs])]
        intro hd
        exact hc (Option.some.inj hd)

theorem strData_eq_nil_iff (s : String) : s.data = [] ↔ s = "" := by
  constructor
  · intro h
    apply String.ext
    rw [h]
  · intro h
    subst h
    rfl

/-- C1 (counterexample): with the explicit key `"//a"`, `build_s3_key` strips
only one leading slash, so the returned key `"/a"` begins with `'/'`. -/
theorem build_s3_key_leading_slash_cex :
    Test2Py.build_s3_key ⟨"x.png"⟩ (some "//a") none = "/a" ∧
    TestPy.build_s3_key ⟨"x.png"⟩ (some "//a") = "/a" ∧
    ("/a" : String).data.head? = some '/' := by
  decide

/-- C1 (amended): the key returned by `build_s3_key` (both scripts) never
begins with `'/'`, provided the explicit key, when used, does not begin with
two slashes, and the folder, when used, does not consist solely of slashes
(the path's final component contains no `'/'`, as `pathlib` guarantees). -/
theorem build_s3_key_no_leading_slash (p : PyPath) (key folder : Option String)
    (hname : p.name.data.head? ≠ some '/')
    (hkey : (key.getD "").data.take 2 ≠ ['/', '/'])
    (hfolder : pyTruthy folder = true → pyStripSlash (folder.getD "") ≠ "") :
    (Test2Py.build_s3_key p key folder).data.head? ≠ some '/' ∧
    (TestPy.build_s3_key p key).data.head? ≠ some '/' := by
  have hfolderBranch :
      (if pyTruthy folder then pyStripSlash (folder.getD "") ++ "/" ++ p.name
       else p.name).data.head? ≠ some '/' := by
    by_cases hF : pyTruthy folder = true
    · rw [if_pos hF]
      have hne : (pyStripSlash (folder.getD "")).data ≠ [] := by
        intro h0
        exact hfolder hF ((strData_eq_nil_iff _).mp h0)
    
      rw [strData_append, List.head?_append_of_ne_nil]
      · rw [strData_append, List.head?_append_of_ne_nil _ hne]
        intro h
        have := stripSlash_head (folder.getD "") '/' h
        simp at this
      · rw [strData_append]
        intro h
        exact hne (List.append_eq_nil.mp h).1
    · rw [if_neg hF]
      exact hname
  constructor
  · by_cases hT : pyTruthy key = true
    · simp only [Test2Py.build_s3_key, if_pos hT]
      exact normKey_head (key.getD "") hkey
    · simp only [Test2Py.build_s3_key, if_neg hT]
      exact hfolderBranch
  · by_cases hT : pyTruthy key = true
    · simp only [TestPy.build_s3_key, if_pos hT]
      exact normKey_head (key.getD "") hkey
    · simp only [TestPy.build_s3_key, if_neg hT]
      exact hname

/-- C1 (witness): the amended theorem applied to a concrete run:
explicit key `"/a/b.pdf"`, folder `"docs"`, file `"x.png"`. -/
theorem build_s3_key_no_leading_slash_wit :
    ((⟨"x.png"⟩ : PyPath).name.data.head? ≠ some '/') ∧
    (((some "/a/b.pdf" : Option String).getD "").data.take 2 ≠ ['/', '/']) ∧
    (Test2Py.build_s3_key ⟨"x.png"⟩ (some "/a/b.pdf") (some "docs")).data.head? ≠ some '/' :=
  ⟨by decide, by decide,
    (build_s3_key_no_leading_slash ⟨"x.png"⟩ (some "/a/b.pdf") (some "docs")
      (by decide) (by decide) (fun _ => by decide)).1⟩

theorem pyStartsWithSlash_eq_head (k : String) :
    pyStartsWithSlash k = true ↔ k.data.head? = some '/' := by
  cases k with
  | mk l =>
    cases l with
    | nil => simp [pyStartsWithSlash]
    | cons c t => simp [pyStartsWithSlash]

/-- C3 (counterexample): for the empty explicit key, `build_s3_key` is *not*
determined by the key alone: Python's truthiness test treats `""` as absent,
so folder/filename derivation runs and the result varies with the filename. -/
theorem build_s3_key_empty_key_cex :
    Test2Py.build_s3_key ⟨"a.png"⟩ (some "") (some "docs") = "docs/a.png" ∧
    Test2Py.build_s3_key ⟨"b.png"⟩ (some "") (some "docs") = "docs/b.png" ∧
    ("docs/a.png" : String) ≠ "docs/b.png" := by
  decide

/-- C3 (amended): for every *non-empty* explicit key, `build_s3_key` (both
scripts) performs no folder/filename derivation: the result is determined by
the explicit key alone and is unchanged when the folder or the path vary. -/
theorem build_s3_key_explicit_key_only (p q : PyPath) (k : String)
    (folder folder' : Option String) (hk : k ≠ "") :
    Test2Py.build_s3_key p (some k) folder = Test2Py.build_s3_key q (some k) folder' ∧
    TestPy.build_s3_key p (some k) = TestPy.build_s3_key q (some k) ∧
    Test2Py.build_s3_key p (some k) folder = TestPy.build_s3_key p (some k) := by
  have hT : pyTruthy (some k) = true := (pyTruthy_some_iff k).mpr hk
  refine ⟨?_, ?_, ?_⟩ <;>
    simp only [Test2Py.build_s3_key, TestPy.build_s3_key, if_pos hT]

/-- C3 (witness): the amended theorem at key `"reports/q3.pdf"` with two
different paths and folders. -/
theorem build_s3_key_explicit_key_only_wit :
    ("reports/q3.pdf" : String) ≠ "" ∧
    Test2Py.build_s3_key ⟨"a.png"⟩ (some "reports/q3.pdf") none
      = Test2Py.build_s3_key ⟨"b.png"⟩ (some "reports/q3.pdf") (some "docs") :=
  ⟨by decide,
    (build_s3_key_explicit_key_only ⟨"a.png"⟩ ⟨"b.png"⟩ "reports/q3.pdf"
      none (some "docs") (by decide)).1⟩

/-- C4: for every non-empty explicit key, `build_s3_key` (both scripts)
removes exactly one leading `'/'` when one is present and otherwise returns
the key unchanged; the remainder is preserved verbatim. -/
theorem build_s3_key_strips_one_slash (p : PyPath) (folder : Option String)
    (k : String) (hk : k ≠ "") :
    (∀ rest, k.data = '/' :: rest →
        (Test2Py.build_s3_key p (some k) folder).data = rest ∧
        (TestPy.build_s3_key p (some k)).data = rest) ∧
    (k.data.head? ≠ some '/' →
        Test2Py.build_s3_key p (some k) folder = k ∧
        TestPy.build_s3_key p (some k) = k) := by
  have hT : pyTruthy (some k) = true := (pyTruthy_some_iff k).mpr hk
  constructor
  · intro rest hr
    have hs : pyStartsWithSlash k = true := by
      rw [pyStartsWithSlash_eq_head, hr]
      rfl
    constructor <;>
      simp [Test2Py.build_s3_key, TestPy.build_s3_key, if_pos hT, hs, pyDropFirst, hr]
  · intro hh
    have hs : pyStartsWithSlash k = false := by
      cases he : pyStartsWithSlash k
      · rfl
      · exact absurd ((pyStartsWithSlash_eq_head k).mp he) hh
    constructor <;>
      simp [Test2Py.build_s3_key, TestPy.build_s3_key, if_pos hT, hs]

/-- C4 (witness): explicit key `"/a/b.pdf"` yields `"a/b.pdf"`. -/
theorem build_s3_key_strips_one_slash_wit :
    ("/a/b.pdf" : String) ≠ "" ∧
    (Test2Py.build_s3_key ⟨"x.png"⟩ (some "/a/b.pdf") none).data
      = ['a', '/', 'b', '.', 'p', 'd', 'f'] :=
  ⟨by decide,
    ((build_s3_key_strips_one_slash ⟨"x.png"⟩ none "/a/b.pdf" (by decide)).1
      ['a', '/', 'b', '.', 'p', 'd', 'f'] (by decide)).1⟩

/-- C5: with no (or empty) explicit key, `test2.py build_s3_key` returns the
folder stripped of leading/trailing `'/'` followed by `'/'` and the file's
base name when the folder is non-empty, and the bare base name when the
folder is empty or absent. -/
theorem build_s3_key_folder_derivation (p : PyPath) (key folder : Option String)
    (hkey : key = none ∨ key = some "") :
    (∀ f, folder = some f → f ≠ "" →
        Test2Py.build_s3_key p key folder = pyStripSlash f ++ "/" ++ p.name) ∧
    ((folder = none ∨ folder = some "") → Test2Py.build_s3_key p key folder = p.name) := by
  have hT : pyTruthy key = false := by
    rcases hkey with h | h <;> subst h <;> rfl
  have hTn : ¬ (pyTruthy key = true) := by simp [hT]
  constructor
  · intro f hf hfne
    subst hf
    have hF : pyTruthy (some f) = true := (pyTruthy_some_iff f).mpr hfne
    simp only [Test2Py.build_s3_key, if_neg hTn, if_pos hF, Option.getD_some]
  · intro hfo
    have hF : pyTruthy folder = false := by
      rcases hfo with h | h <;> subst h <;> rfl
    have hFn : ¬ (pyTruthy folder = true) := by simp [hF]
    simp only [Test2Py.build_s3_key, if_neg hTn, if_neg hFn]

/-- C5 (witness): folder `"docs/"` and file `"x.png"` give `"docs/x.png"`;
absent folder gives `"x.png"`. -/
theorem build_s3_key_folder_derivation_wit :
    ((none : Option String) = none ∨ (none : Option String) = some "") ∧
    Test2Py.build_s3_key ⟨"x.png"⟩ none (some "docs/")
      = pyStripSlash "docs/" ++ "/" ++ ("x.png" : String) ∧
    pyStripSlash "docs/" ++ "/" ++ ("x.png" : String) = "docs/x.png" ∧
    Test2Py.build_s3_key ⟨"x.png"⟩ none none = "x.png" :=
  ⟨Or.inl rfl,
    (build_s3_key_folder_derivation ⟨"x.png"⟩ none (some "docs/")
      (Or.inl rfl)).1 "docs/" rfl (by decide),
    by decide,
    (build_s3_key_folder_derivation ⟨"x.png"⟩ none none (Or.inl rfl)).2 (Or.inl rfl)⟩

/-- C6: in image mode, an existing regular file whose (lowercased) extension
is outside `SUPPORTED_IMAGE_EXTENSIONS` makes `validate_inputs` exit with
status 1, and `main` then exits 1 without reaching the upload step; an
extension inside the set passes validation and the resolved path is
returned. -/
theorem validate_inputs_image_mode (p : PyPath) :
    (Test2Py.SUPPORTED_IMAGE_EXTENSIONS.contains (pyLower p.suffix) = false →
        Test2Py.validate_inputs p true true true = .exit 1 ∧
        ∀ key bucket folder settings transferOk,
          Test2Py.main p key bucket folder true settings true true transferOk = .exit 1) ∧
    (Test2Py.SUPPORTED_IMAGE_EXTENSIONS.contains (pyLower p.suffix) = true →
        Test2Py.validate_inputs p true true true = .ok p false) := by
  constructor
  · intro h
    have hm : pyLower p.suffix ∉ Test2Py.SUPPORTED_IMAGE_EXTENSIONS := by simpa using h
    have hv : Test2Py.validate_inputs p true true true = .exit 1 := by
      simp [Test2Py.validate_inputs, hm]
    refine ⟨hv, ?_⟩
    intro key bucket folder settings transferOk
    simp [Test2Py.main, hv]
  · intro h
    have hm : pyLower p.suffix ∈ Test2Py.SUPPORTED_IMAGE_EXTENSIONS := by simpa using h
    simp [Test2Py.validate_inputs, hm]

/-- C6 (witness): a `.txt` file is fatal in image mode; a `.png` file
passes. -/
theorem validate_inputs_image_mode_wit :
    Test2Py.SUPPORTED_IMAGE_EXTENSIONS.contains (pyLower (⟨"notes.txt"⟩ : PyPath).suffix)
      = false ∧
    Test2Py.validate_inputs ⟨"notes.txt"⟩ true true true = .exit 1 ∧
    Test2Py.SUPPORTED_IMAGE_EXTENSIONS.contains (pyLower (⟨"chart.png"⟩ : PyPath).suffix)
      = true ∧
    Test2Py.validate_inputs ⟨"chart.png"⟩ true true true = .ok ⟨"chart.png"⟩ false :=
  ⟨by decide,
    ((validate_inputs_image_mode ⟨"notes.txt"⟩).1 (by decide)).1,
    by decide,
    (validate_inputs_image_mode ⟨"chart.png"⟩).2 (by decide)⟩

/-- C7: in document mode, an existing regular file whose (lowercased)
extension is not `.pdf` gets a logged warning but `validate_inputs` returns
the resolved path (both scripts), and `test.py main` still continues to a
successful upload. -/
theorem validate_inputs_doc_mode_warns (p : PyPath) (hs : pyLower p.suffix ≠ ".pdf") :
    TestPy.validate_inputs p true true = .ok p true ∧
    Test2Py.validate_inputs p true true false = .ok p true ∧
    ∀ (key : Option String) (b : String) (settings : Settings), b ≠ "" →
      TestPy.main p key (some b) settings true true true
        = .done (TestPy.build_s3_key p key)
            ("Upload complete: " ++ ("s3://" ++ b ++ "/" ++ TestPy.build_s3_key p key)) := by
  have hv : TestPy.validate_inputs p true true = .ok p true := by
    simp [TestPy.validate_inputs, hs]
  refine ⟨hv, by simp [Test2Py.validate_inputs, hs], ?_⟩
  intro key b settings hb
  have hbt : pyTruthy (some b) = true := (pyTruthy_some_iff b).mpr hb
  have hbe : b.isEmpty = false := by
    cases he : b.isEmpty
    · rfl
    · exact absurd ((String.isEmpty_iff b).mp he) hb
  simp [TestPy.main, hv, pyOrStr, hbt, hbe, TestPy.upload_file_to_s3]

/-- C7 (witness): a `.txt` file in document mode warns, returns the path, and
a run of `test.py main` with a bucket override completes the upload. -/
theorem validate_inputs_doc_mode_warns_wit :
    pyLower (⟨"notes.txt"⟩ : PyPath).suffix ≠ ".pdf" ∧
    TestPy.validate_inputs ⟨"notes.txt"⟩ true true = .ok ⟨"notes.txt"⟩ true ∧
    ("b1" : String) ≠ "" ∧
    TestPy.main ⟨"notes.txt"⟩ none (some "b1") exampleSettings true true true
      = .done (TestPy.build_s3_key ⟨"notes.txt"⟩ none)
          ("Upload complete: " ++ ("s3://" ++ "b1" ++ "/" ++ TestPy.build_s3_key ⟨"notes.txt"⟩ none)) :=
  ⟨by decide,
    (validate_inputs_doc_mode_warns ⟨"notes.txt"⟩ (by decide)).1,
    by decide,
    (validate_inputs_doc_mode_warns ⟨"notes.txt"⟩ (by decide)).2.2 none "b1"
      exampleSettings (by decide)⟩

/-- C8: on any transfer failure `upload_file_to_s3` logs the error and exits
with status 1 (single attempt, no retry); on success it logs and
returns/prints exactly `s3://bucket/key` (both scripts). -/
theorem upload_file_to_s3_outcomes (p : PyPath) (bucket key : String) :
    Test2Py.upload_file_to_s3 p bucket key false = .fatal 1 true ∧
    Test2Py.upload_file_to_s3 p bucket key true =
      .ok ("Upload complete: " ++ ("s3://" ++ bucket ++ "/" ++ key))
        ("s3://" ++ bucket ++ "/" ++ key) ∧
    TestPy.upload_file_to_s3 p bucket key false = .fatal 1 true ∧
    TestPy.upload_file_to_s3 p bucket key true =
      .ok ("Upload complete: " ++ ("s3://" ++ bucket ++ "/" ++ key)) ∧
    strContains ("Upload complete: " ++ ("s3://" ++ bucket ++ "/" ++ key))
      ("s3://" ++ bucket ++ "/" ++ key) :=
  ⟨rfl, rfl, rfl, rfl, strContains_self _ _⟩

/-- C9: `infer_content_type` is a total function of the path: `.pdf` maps to
`application/pdf`, `.webp` to `image/webp`, and any extension without a
table entry falls back to `application/octet-stream` (both scripts). -/
theorem infer_content_type_table :
    TestPy.infer_content_type ⟨"report.pdf"⟩ = "application/pdf" ∧
    Test2Py.infer_content_type ⟨"report.pdf"⟩ = "application/pdf" ∧
    TestPy.infer_content_type ⟨"image.webp"⟩ = "image/webp" ∧
    Test2Py.infer_content_type ⟨"image.webp"⟩ = "image/webp" ∧
    ∀ p : PyPath, mimetypesTable.lookup (pyLower p.suffix) = none →
      TestPy.infer_content_type p = "application/octet-stream" ∧
      Test2Py.infer_content_type p = "application/octet-stream" := by
  refine ⟨by decide, by decide, by decide, by decide, ?_⟩
  intro p h
  constructor <;>
    simp [TestPy.infer_content_type, Test2Py.infer_content_type, mimetypes_guess_type, h]

/-- C9 (witness): the fallback case at the concrete path
`"file.unknownext"`. -/
theorem infer_content_type_table_wit :
    mimetypesTable.lookup (pyLower (⟨"file.unknownext"⟩ : PyPath).suffix) = none ∧
    TestPy.infer_content_type ⟨"file.unknownext"⟩ = "application/octet-stream" :=
  ⟨by decide,
    (infer_content_type_table.2.2.2.2 ⟨"file.unknownext"⟩ (by decide)).1⟩

/-- C10: the extension checks lowercase the suffix first, so they are
case-insensitive: any path whose lowercased extension is in the image set
passes image-mode validation with no warning, and any path whose lowercased
extension is `.pdf` passes document mode with no warning (both scripts). -/
theorem validate_inputs_case_insensitive (p : PyPath) :
    (Test2Py.SUPPORTED_IMAGE_EXTENSIONS.contains (pyLower p.suffix) = true →
        Test2Py.validate_inputs p true true true = .ok p false) ∧
    (pyLower p.suffix = ".pdf" →
        TestPy.validate_inputs p true true = .ok p false ∧
        Test2Py.validate_inputs p true true false = .ok p false) := by
  constructor
  · intro h
    have hm : pyLower p.suffix ∈ Test2Py.SUPPORTED_IMAGE_EXTENSIONS := by simpa using h
    simp [Test2Py.validate_inputs, hm]
  · intro h
    exact ⟨by simp [TestPy.validate_inputs, h], by simp [Test2Py.validate_inputs, h]⟩

/-- C10 (witness): `.PNG` passes image mode; `.PDF` produces no warning in
document mode. -/
theorem validate_inputs_case_insensitive_wit :
    Test2Py.SUPPORTED_IMAGE_EXTENSIONS.contains (pyLower (⟨"photo.PNG"⟩ : PyPath).suffix)
      = true ∧
    Test2Py.validate_inputs ⟨"photo.PNG"⟩ true true true = .ok ⟨"photo.PNG"⟩ false ∧
    pyLower (⟨"doc.PDF"⟩ : PyPath).suffix = ".pdf" ∧
    TestPy.validate_inputs ⟨"doc.PDF"⟩ true true = .ok ⟨"doc.PDF"⟩ false :=
  ⟨by decide,
    (validate_inputs_case_insensitive ⟨"photo.PNG"⟩).1 (by decide),
    by decide,
    ((validate_inputs_case_insensitive ⟨"doc.PDF"⟩).2 (by decide)).1⟩

/-- C2 (counterexample): a `test2.py` run with a bucket override, an existing
regular `.pdf` file, and no explicit key uses the default folder
`"dummy_image"`, so the destination key is `"dummy_image/report.pdf"`, not
the bare base name, and the success line does not contain
`s3://mybucket/report.pdf`. -/
theorem main_default_folder_cex :
    Test2Py.main ⟨"report.pdf"⟩ none (some "mybucket") none false exampleSettings
      true true true
      = .done "dummy_image/report.pdf"
          "Upload complete: s3://mybucket/dummy_image/report.pdf"
          "s3://mybucket/dummy_image/report.pdf" none ∧
    ("dummy_image/report.pdf" : String) ≠ "report.pdf" := by
  decide

/-- C2 (amended): with a bucket override, an existing regular `.pdf` file and
no explicit key, the stated property holds for `test.py` as written; for
`test2.py` it holds only when the folder argument is empty (the default is
`"dummy_image"`, which prefixes the key): the destination key is the file's
base name and the success line contains `s3://<bucket>/<filename>`. -/
theorem main_bucket_override_pdf (p : PyPath) (b : String) (settings : Settings)
    (hpdf : pyLower p.suffix = ".pdf") (hb : b ≠ "") :
    (∃ line, TestPy.main p none (some b) settings true true true = .done p.name line ∧
        strContains line ("s3://" ++ b ++ "/" ++ p.name)) ∧
    (∃ line sp, Test2Py.main p none (some b) (some "") false settings true true true
        = .done p.name line sp none ∧
        strContains line ("s3://" ++ b ++ "/" ++ p.name)) := by
  have hbt : pyTruthy (some b) = true := (pyTruthy_some_iff b).mpr hb
  have hbe : b.isEmpty = false := by
    cases he : b.isEmpty
    · rfl
    · exact absurd ((String.isEmpty_iff b).mp he) hb
  have hnotimg : Test2Py.SUPPORTED_IMAGE_EXTENSIONS.contains (pyLower p.suffix) = false := by
    rw [hpdf]
    decide
  constructor
  · refine ⟨"Upload complete: " ++ ("s3://" ++ b ++ "/" ++ p.name), ?_, strContains_self _ _⟩
    have hv : TestPy.validate_inputs p true true = .ok p false := by
      simp [TestPy.validate_inputs, hpdf]
    simp [TestPy.main, hv, pyOrStr, hbt, hbe, TestPy.upload_file_to_s3,
      TestPy.build_s3_key, pyTruthy]
  · refine ⟨"Upload complete: " ++ ("s3://" ++ b ++ "/" ++ p.name),
      "s3://" ++ b ++ "/" ++ p.name, ?_, strContains_self _ _⟩
    have hv : Test2Py.validate_inputs p true true false = .ok p false := by
      simp [Test2Py.validate_inputs, hpdf]
    have hmem : pyLower p.suffix ∉ Test2Py.SUPPORTED_IMAGE_EXTENSIONS := by
      simpa using hnotimg
    have hee : ("" : String).isEmpty = true := by decide
    simp [Test2Py.main, hmem, hv, pyOrStr, hbt, hbe, Test2Py.upload_file_to_s3,
      Test2Py.build_s3_key, pyTruthy, hee]

/-- C2 (witness): the amended theorem at file `"report.pdf"` with bucket
override `"mybucket"`. -/
theorem main_bucket_override_pdf_wit :
    pyLower (⟨"report.pdf"⟩ : PyPath).suffix = ".pdf" ∧
    ("mybucket" : String) ≠ "" ∧
    (∃ line, TestPy.main ⟨"report.pdf"⟩ none (some "mybucket") exampleSettings true true true
        = .done (⟨"report.pdf"⟩ : PyPath).name line ∧
        strContains line ("s3://" ++ "mybucket" ++ "/" ++ (⟨"report.pdf"⟩ : PyPath).name)) :=
  ⟨by decide, by decide,
    (main_bucket_override_pdf ⟨"report.pdf"⟩ "mybucket" exampleSettings
      (by decide) (by decide)).1⟩
